import Mathlib

/-!
Verification of the request-authorization pipeline of the example resource
server in src/example/client/api/api.go (package main).

The Go file wires three chi routes:
  - /public                      (no authorization)
  - /protected                   (bearer token + introspection)
  - /protected/{claim}/{value}   (bearer token + introspection + claim match)
and a helper checkToken that extracts the bearer token from the
authorization header.

The introspection client rs.Introspect, the constant oidc.PrefixBearer and
the type oidc.IntrospectionResponse live in packages of this repository
that are not part of the example source; where their behaviour matters it
is modelled from the specification (each such definition carries a doc
comment starting with: Modelled from the spec).  Go strings are embedded
as Lean String; byte-level prefix operations on well-formed UTF-8 agree
with the character-level operations used here.  The remote introspection
authority and the JSON marshaler are external collaborators and enter the
model as function parameters (oracles).
-/

set_option autoImplicit false

namespace OidcApi

/-- Dynamic claim value: the Go type of one entry of
map[string]any of Claims, restricted to the tagged variant of the spec
(string | number | boolean | null | nested mapping). -/
inductive ClaimValue where
  | str (s : String)
  | num (n : Int)
  | boolean (b : Bool)
  | null
  | nested (m : List (String × ClaimValue))

/-- Modelled from the spec: oidc.IntrospectionResponse (pkg/oidc is not
part of the example source).  Per the data model it carries the active
flag and the claims mapping returned by the authority. -/
structure IntrospectionResponse where
  active : Bool
  claims : List (String × ClaimValue)

/-- Modelled from the spec: the failure kinds of the introspection client
(TransportError, AuthorityError, DecodeError). -/
inductive FailureKind where
  | transportError
  | authorityError
  | decodeError
deriving DecidableEq

/-- Modelled from the spec: a failure of rs.Introspect.  The raw response
body of the authority is retained internally (an authority error or a
decode error arises from a concrete response), but the error text exposed
via err.Error() must carry only the minimal failure reason. -/
structure IntrospectFailure where
  kind : FailureKind
  authorityBody : String

/-- Modelled from the spec: the human-readable plain-text reason of each
introspection failure kind, passing through only the minimal failure
reason and never the authority response body. -/
def FailureKind.reasonText : FailureKind → String
  | FailureKind.transportError => "introspection request failed"
  | FailureKind.authorityError => "introspection authority returned an error"
  | FailureKind.decodeError => "introspection response could not be decoded"

/-- The err.Error() text of an introspection failure. -/
def IntrospectFailure.errMessage (e : IntrospectFailure) : String :=
  e.kind.reasonText

/-- Modelled from the spec: the constant oidc.PrefixBearer, the exact
case-sensitive scheme literal of the authorization header. -/
def PrefixBearer : String := "Bearer "

/-- Go strings.HasPrefix(s, pre), embedded on the character lists of the
two strings. -/
def goStartsWith (s pre : String) : Bool :=
  pre.data.isPrefixOf s.data

/-- Go strings.TrimPrefix(s, pre): s without the leading pre, or s
unchanged when pre is not a prefix. -/
def goTrimLeading (s pre : String) : String :=
  if goStartsWith s pre then String.mk (s.data.drop pre.data.length) else s

/-- An incoming HTTP request, reduced to what the handlers inspect: the
value of the authorization header (empty string when the header is
absent, as returned by Go Header.Get) and the remaining headers. -/
structure Request where
  authorization : String
  otherHeaders : List (String × String)

/-- An HTTP response: status code and body text.  http.Error(w, msg, code)
is embedded as the response with that status and msg as body. -/
structure Response where
  status : Nat
  body : String
deriving DecidableEq

/-- Result of checkToken: either the request was already denied with a
written response (checkToken returned false), or the extracted token. -/
inductive CheckTokenResult where
  | denied (resp : Response)
  | token (t : String)
deriving DecidableEq

/-- checkToken from api.go: reads the authorization header, 401 when it is
empty, 401 when it does not start with oidc.PrefixBearer, otherwise the
header with the prefix trimmed. -/
def checkToken (auth : String) : CheckTokenResult :=
  if auth = "" then CheckTokenResult.denied ⟨401, "auth header missing"⟩
  else if ¬ goStartsWith auth PrefixBearer then
    CheckTokenResult.denied ⟨401, "invalid header"⟩
  else CheckTokenResult.token (goTrimLeading auth PrefixBearer)

/-- The three routes registered on the chi router.  The claim route
carries its two URL parameters as extracted by chi.URLParam. -/
inductive Route where
  | publicRoute
  | protectedRoute
  | protectedClaimRoute (claim : String) (value : String)
deriving DecidableEq

/-- The type of the introspection oracle: what rs.Introspect returns for a
given token, one outbound call per invocation. -/
def IntrospectOracle : Type :=
  String → Except IntrospectFailure IntrospectionResponse

/-- The type of the JSON marshaler oracle: what json.Marshal returns for
an introspection response (serialized bytes as a string, or the error
text). -/
def MarshalOracle : Type :=
  IntrospectionResponse → Except String String

/-- The Go type assertion value, ok := x.(string) applied to the result of
the claims map lookup: a missing key yields the nil interface value, so
the assertion fails with ("", false), as it does for a non-string value. -/
def assertString : Option ClaimValue → String × Bool
  | some (ClaimValue.str s) => (s, true)
  | _ => ("", false)

/-- Go map lookup resp.Claims[name] on the association-list embedding of
the claims map (keys of a Go map are unique; the first match decides). -/
def lookupClaim : List (String × ClaimValue) → String → Option ClaimValue
  | [], _ => none
  | (k, v) :: rest, name => if k = name then some v else lookupClaim rest name

/-- The request handlers of api.go, dispatched by route.  now is the text
of time.Now() at handling time; introspect and marshal are the external
collaborators. -/
def handle (introspect : IntrospectOracle) (marshal : MarshalOracle)
    (now : String) : Route → Request → Response
  | Route.publicRoute, _ => ⟨200, "OK " ++ now⟩
  | Route.protectedRoute, req =>
    match checkToken req.authorization with
    | CheckTokenResult.denied resp => resp
    | CheckTokenResult.token t =>
      match introspect t with
      | Except.error e => ⟨403, e.errMessage⟩
      | Except.ok resp =>
        match marshal resp with
        | Except.error msg => ⟨500, msg⟩
        | Except.ok data => ⟨200, data⟩
  | Route.protectedClaimRoute requestedClaim requestedValue, req =>
    match checkToken req.authorization with
    | CheckTokenResult.denied resp => resp
    | CheckTokenResult.token t =>
      match introspect t with
      | Except.error e => ⟨403, e.errMessage⟩
      | Except.ok resp =>
        let p := assertString (lookupClaim resp.claims requestedClaim)
        if p.2 = false ∨ p.1 = "" ∨ p.1 ≠ requestedValue then
          ⟨403, "claim does not match"⟩
        else ⟨200, "authorized with value " ++ p.1⟩

/-- The read-only server configuration built once in main before the
router starts: issuer and key file path of the resource-server provider. -/
structure ServerState where
  issuer : String
  keyPath : String
deriving DecidableEq

/-- One handler invocation against the shared server state: the handlers
of api.go close over the provider only and never write to it, so the
state passes through unchanged.  The authority oracle may depend on the
provider configuration. -/
def handleSt (A : ServerState → IntrospectOracle) (marshal : MarshalOracle)
    (now : String) (st : ServerState) (route : Route) (req : Request) :
    Response × ServerState :=
  (handle (A st) marshal now route req, st)

/-- Modelled from the spec: the internal result taxonomy of the Claim
Matcher (ClaimAbsent, ClaimTypeMismatch, ClaimEmpty, ClaimValueMismatch,
or a match). -/
inductive MatchResult where
  | ok
  | claimAbsent
  | claimTypeMismatch
  | claimEmpty
  | claimValueMismatch
deriving DecidableEq

/-- Modelled from the spec: the Claim Matcher rule of the spec, producing
the internal failure kind: absent key, non-string value, empty string,
unequal string, or success. -/
def matchClaim (claims : List (String × ClaimValue)) (name reqVal : String) :
    MatchResult :=
  match lookupClaim claims name with
  | none => MatchResult.claimAbsent
  | some (ClaimValue.str s) =>
    if s = "" then MatchResult.claimEmpty
    else if s ≠ reqVal then MatchResult.claimValueMismatch
    else MatchResult.ok
  | some _ => MatchResult.claimTypeMismatch

/-- Introspection oracle that reports every token as successfully
introspected but inactive, with no claims. -/
def oracleInactive : IntrospectOracle :=
  fun _ => Except.ok ⟨false, []⟩

/-- Introspection oracle that reports every token active with the given
claims mapping. -/
def constActive (claims : List (String × ClaimValue)) : IntrospectOracle :=
  fun _ => Except.ok ⟨true, claims⟩

/-- Introspection oracle that fails every call with the given kind and raw
authority body. -/
def constFail (k : FailureKind) (b : String) : IntrospectOracle :=
  fun _ => Except.error ⟨k, b⟩

/-- Marshal oracle that serializes every response to the given string. -/
def marshalConst (s : String) : MarshalOracle :=
  fun _ => Except.ok s

/-- Marshal oracle that fails every call with the given error text. -/
def marshalFail (msg : String) : MarshalOracle :=
  fun _ => Except.error msg

/-- Introspection oracle that reports every nonempty token active with no
claims and fails on the empty token. -/
def oracleActiveExceptEmpty : IntrospectOracle :=
  fun s =>
    if s = "" then Except.error ⟨FailureKind.transportError, ""⟩
    else Except.ok ⟨true, []⟩

/-- A string with any suffix appended starts with itself. -/
theorem goStartsWith_append (p r : String) : goStartsWith (p ++ r) p = true := by
  simp [goStartsWith, String.data_append, List.isPrefixOf_iff_prefix]

/-- Trimming a leading prefix from the concatenation returns exactly the
appended remainder. -/
theorem goTrimLeading_append (p r : String) : goTrimLeading (p ++ r) p = r := by
  rw [goTrimLeading, goStartsWith_append]
  simp only [if_true, String.data_append, List.drop_left]

/-- A header that starts with the bearer prefix is not the empty string. -/
theorem bearer_append_ne_empty (r : String) : PrefixBearer ++ r ≠ "" := by
  intro h
  have h2 := congrArg String.data h
  simp [String.data_append, PrefixBearer] at h2

/-- checkToken on a well-formed bearer header returns exactly the
remainder after the prefix. -/
theorem checkToken_bearer (r : String) :
    checkToken (PrefixBearer ++ r) = CheckTokenResult.token r := by
  rw [checkToken, if_neg (bearer_append_ne_empty r)]
  rw [goStartsWith_append]
  simp only [not_true, if_false, goTrimLeading_append]

/-- Claim C1, evaluated at the failing input: a request to /protected with
header authorization Bearer some-token, whose introspection succeeds and
reports active false, is answered 200 with the serialized introspection
result — the handler of api.go never inspects the active flag, so an
inactive token is Allowed, not answered 403 as the claim states. -/
theorem claim_C1_inactive_token_answered_200 :
    handle oracleInactive (marshalConst "serialized-introspection-result") "t0"
      Route.protectedRoute ⟨"Bearer some-token", []⟩ =
    ⟨200, "serialized-introspection-result"⟩ := by
  decide

/-- Claim C8: every request to /public is answered 200 with body OK
followed by the current timestamp, independently of its headers and of the
introspection and marshal collaborators (no authorization check). -/
theorem claim_C8_public_always_200 :
    ∀ (o o' : IntrospectOracle) (m m' : MarshalOracle) (now : String)
      (req req' : Request),
      handle o m now Route.publicRoute req = ⟨200, "OK " ++ now⟩ ∧
      handle o m now Route.publicRoute req = handle o' m' now Route.publicRoute req' := by
  intro o o' m m' now req req'
  exact ⟨rfl, rfl⟩

/-- Claim C9: one handler invocation leaves the shared server state
unchanged, and a second identical invocation against the resulting state
produces the same response — the pipeline is deterministic and stateless
across invocations. -/
theorem claim_C9_stateless_deterministic :
    ∀ (A : ServerState → IntrospectOracle) (m : MarshalOracle) (now : String)
      (st : ServerState) (route : Route) (req : Request),
      (handleSt A m now st route req).2 = st ∧
      (handleSt A m now (handleSt A m now st route req).2 route req).1 =
        (handleSt A m now st route req).1 := by
  intro A m now st route req
  exact ⟨rfl, rfl⟩

/-- Claim C10: on /protected, when the token passes checkToken, the
introspection succeeds and json.Marshal fails, the response is 500 with
the marshal error text as body — a fourth outcome outside 401, 403, 200. -/
theorem claim_C10_marshal_failure_500 :
    ∀ (o : IntrospectOracle) (m : MarshalOracle) (now : String) (req : Request)
      (t : String) (resp : IntrospectionResponse) (msg : String),
      checkToken req.authorization = CheckTokenResult.token t →
      o t = Except.ok resp →
      m resp = Except.error msg →
      handle o m now Route.protectedRoute req = ⟨500, msg⟩ := by
  intro o m now req t resp msg h1 h2 h3
  simp [handle, h1, h2, h3]

/-- Witness for claim C10: the concrete marshal failure yields the 500
response with the error text. -/
theorem claim_C10_witness :
    handle (constActive []) (marshalFail "marshal error text") "n"
      Route.protectedRoute ⟨"Bearer x", []⟩ = ⟨500, "marshal error text"⟩ :=
  claim_C10_marshal_failure_500 (constActive []) (marshalFail "marshal error text")
    "n" ⟨"Bearer x", []⟩ "x" ⟨true, []⟩ "marshal error text" (by decide) rfl rfl

/-- Claim C3: on a protected route, an empty authorization header is
answered 401 auth header missing (the empty check takes precedence), a
nonempty header without the exact bearer prefix is answered 401 invalid
header, and in both cases the response is independent of the introspection
oracle, the marshaler and the timestamp (no introspection call is made). -/
theorem claim_C3_unauthorized_header :
    ∀ (o o' : IntrospectOracle) (m m' : MarshalOracle) (now now' : String)
      (route : Route) (req : Request),
      route ≠ Route.publicRoute →
      (req.authorization = "" →
        handle o m now route req = ⟨401, "auth header missing"⟩ ∧
        handle o m now route req = handle o' m' now' route req) ∧
      (req.authorization ≠ "" →
        goStartsWith req.authorization PrefixBearer = false →
        handle o m now route req = ⟨401, "invalid header"⟩ ∧
        handle o m now route req = handle o' m' now' route req) := by
  intro o o' m m' now now' route req hr
  cases route with
  | publicRoute => exact absurd rfl hr
  | protectedRoute =>
    refine ⟨fun h => ⟨?_, ?_⟩, fun h1 h2 => ⟨?_, ?_⟩⟩ <;>
      simp [handle, checkToken, *]
  | protectedClaimRoute c v =>
    refine ⟨fun h => ⟨?_, ?_⟩, fun h1 h2 => ⟨?_, ?_⟩⟩ <;>
      simp [handle, checkToken, *]

/-- Witness for claim C3: the empty header and a basic-scheme header on
/protected produce the two 401 responses. -/
theorem claim_C3_witness :
    handle oracleInactive (marshalConst "j") "n" Route.protectedRoute ⟨"", []⟩ =
      ⟨401, "auth header missing"⟩ ∧
    handle oracleInactive (marshalConst "j") "n" Route.protectedRoute
        ⟨"basic xyz", []⟩ = ⟨401, "invalid header"⟩ :=
  ⟨((claim_C3_unauthorized_header oracleInactive (constActive []) (marshalConst "j")
      (marshalConst "k") "n" "n2" Route.protectedRoute ⟨"", []⟩ (by decide)).1 rfl).1,
   ((claim_C3_unauthorized_header oracleInactive (constActive []) (marshalConst "j")
      (marshalConst "k") "n" "n2" Route.protectedRoute ⟨"basic xyz", []⟩
      (by decide)).2 (by decide) (by decide)).1⟩

/-- Claim C7: for every header starting with the bearer prefix, checkToken
returns exactly the remainder after the prefix, unmodified, including the
empty remainder; and the pipeline consults the introspection oracle only
at that remainder — two oracles agreeing there yield the same response. -/
theorem claim_C7_extracted_token_is_remainder :
    ∀ (rest : String) (o o' : IntrospectOracle) (m : MarshalOracle)
      (now : String) (hs : List (String × String)),
      o rest = o' rest →
      checkToken (PrefixBearer ++ rest) = CheckTokenResult.token rest ∧
      handle o m now Route.protectedRoute ⟨PrefixBearer ++ rest, hs⟩ =
        handle o' m now Route.protectedRoute ⟨PrefixBearer ++ rest, hs⟩ := by
  intro rest o o' m now hs h
  refine ⟨checkToken_bearer rest, ?_⟩
  simp [handle, checkToken_bearer, h]

/-- Witness for claim C7: two oracles that agree on the token tok but not
on the empty token produce the same response for header Bearer tok, and
the extractor returns tok. -/
theorem claim_C7_witness :
    checkToken (PrefixBearer ++ "tok") = CheckTokenResult.token "tok" ∧
    handle (constActive []) (marshalConst "j") "n" Route.protectedRoute
        ⟨PrefixBearer ++ "tok", []⟩ =
      handle oracleActiveExceptEmpty (marshalConst "j") "n" Route.protectedRoute
        ⟨PrefixBearer ++ "tok", []⟩ :=
  claim_C7_extracted_token_is_remainder "tok" (constActive [])
    oracleActiveExceptEmpty (marshalConst "j") "n" [] (by simp [constActive, oracleActiveExceptEmpty])

/-- Claim C5: on a protected route, the response to an introspection
failure does not depend on the raw authority response body — two failures
of the same kind with different bodies give identical responses — and once
the token stage passes, the response is 403 with only the fixed minimal
reason text of the failure kind as body. -/
theorem claim_C5_no_authority_body_leak :
    ∀ (k : FailureKind) (b b' : String) (m m' : MarshalOracle)
      (now : String) (route : Route) (req : Request),
      route ≠ Route.publicRoute →
      handle (constFail k b) m now route req =
        handle (constFail k b') m' now route req ∧
      (∀ rest : String, req.authorization = PrefixBearer ++ rest →
        handle (constFail k b) m now route req = ⟨403, FailureKind.reasonText k⟩) := by
  intro k b b' m m' now route req hroute
  cases route with
  | publicRoute => exact absurd rfl hroute
  | protectedRoute =>
    constructor
    · cases hct : checkToken req.authorization <;>
        simp [handle, hct, constFail, IntrospectFailure.errMessage]
    · intro rest hr
      simp [handle, hr, checkToken_bearer, constFail, IntrospectFailure.errMessage]
  | protectedClaimRoute c v =>
    constructor
    · cases hct : checkToken req.authorization <;>
        simp [handle, hct, constFail, IntrospectFailure.errMessage]
    · intro rest hr
      simp [handle, hr, checkToken_bearer, constFail, IntrospectFailure.errMessage]

/-- Witness for claim C5: an authority failure carrying a secret internal
body produces the same 403 response as one carrying no body at all, and
that response holds only the fixed reason text. -/
theorem claim_C5_witness :
    handle (constFail FailureKind.authorityError "secret internal authority body")
        (marshalConst "j") "n" Route.protectedRoute ⟨PrefixBearer ++ "tok", []⟩ =
      handle (constFail FailureKind.authorityError "") (marshalConst "k") "n"
        Route.protectedRoute ⟨PrefixBearer ++ "tok", []⟩ ∧
    handle (constFail FailureKind.authorityError "secret internal authority body")
        (marshalConst "j") "n" Route.protectedRoute ⟨PrefixBearer ++ "tok", []⟩ =
      ⟨403, FailureKind.reasonText FailureKind.authorityError⟩ :=
  ⟨(claim_C5_no_authority_body_leak FailureKind.authorityError
      "secret internal authority body" "" (marshalConst "j") (marshalConst "k")
      "n" Route.protectedRoute ⟨PrefixBearer ++ "tok", []⟩ (by decide)).1,
   (claim_C5_no_authority_body_leak FailureKind.authorityError
      "secret internal authority body" "" (marshalConst "j") (marshalConst "k")
      "n" Route.protectedRoute ⟨PrefixBearer ++ "tok", []⟩ (by decide)).2 "tok" rfl⟩

/-- Claim C2: on /protected/claim/value with a successfully introspected
token, an absent claim, a non-string claim or an unequal string claim is
answered 403 claim does not match, and a nonempty string claim equal to
the requested value is answered 200 with body authorized with value
followed by the value. -/
theorem claim_C2_claim_route_decision :
    ∀ (o : IntrospectOracle) (m : MarshalOracle) (now : String)
      (name reqVal : String) (req : Request) (t : String)
      (resp : IntrospectionResponse),
      checkToken req.authorization = CheckTokenResult.token t →
      o t = Except.ok resp →
      (lookupClaim resp.claims name = none →
        handle o m now (Route.protectedClaimRoute name reqVal) req =
          ⟨403, "claim does not match"⟩) ∧
      (∀ v, lookupClaim resp.claims name = some v →
        (∀ s, v ≠ ClaimValue.str s) →
        handle o m now (Route.protectedClaimRoute name reqVal) req =
          ⟨403, "claim does not match"⟩) ∧
      (∀ s, lookupClaim resp.claims name = some (ClaimValue.str s) → s ≠ reqVal →
        handle o m now (Route.protectedClaimRoute name reqVal) req =
          ⟨403, "claim does not match"⟩) ∧
      (∀ s, lookupClaim resp.claims name = some (ClaimValue.str s) → s ≠ "" →
        s = reqVal →
        handle o m now (Route.protectedClaimRoute name reqVal) req =
          ⟨200, "authorized with value " ++ reqVal⟩) := by
  intro o m now name reqVal req t resp h1 h2
  refine ⟨fun hl => ?_, fun v hl hv => ?_, fun s hl hne => ?_, fun s hl hne heq => ?_⟩
  · simp [handle, h1, h2, hl, assertString]
  · cases v with
    | str s => exact absurd rfl (hv s)
    | num n => simp [handle, h1, h2, hl, assertString]
    | boolean bv => simp [handle, h1, h2, hl, assertString]
    | null => simp [handle, h1, h2, hl, assertString]
    | nested mv => simp [handle, h1, h2, hl, assertString]
  · simp [handle, h1, h2, hl, assertString, hne]
  · subst heq
    simp [handle, h1, h2, hl, assertString, hne]

/-- Witness for claim C2: the username claim alice matches the requested
value alice and yields the 200 confirmation body. -/
theorem claim_C2_witness :
    handle (constActive [("username", ClaimValue.str "alice")]) (marshalConst "j")
        "n" (Route.protectedClaimRoute "username" "alice") ⟨"Bearer tok", []⟩ =
      ⟨200, "authorized with value " ++ "alice"⟩ :=
  (claim_C2_claim_route_decision (constActive [("username", ClaimValue.str "alice")])
    (marshalConst "j") "n" "username" "alice" ⟨"Bearer tok", []⟩ "tok"
    ⟨true, [("username", ClaimValue.str "alice")]⟩ (by decide) rfl).2.2.2 "alice"
    rfl (by decide) rfl

/-- Claim C4: a claim present and string-typed but equal to the empty
string never matches: the response is 403 claim does not match for every
requested value, the empty requested value included. -/
theorem claim_C4_empty_claim_never_allowed :
    ∀ (o : IntrospectOracle) (m : MarshalOracle) (now : String)
      (name reqVal : String) (req : Request) (t : String)
      (resp : IntrospectionResponse),
      checkToken req.authorization = CheckTokenResult.token t →
      o t = Except.ok resp →
      lookupClaim resp.claims name = some (ClaimValue.str "") →
      handle o m now (Route.protectedClaimRoute name reqVal) req =
        ⟨403, "claim does not match"⟩ := by
  intro o m now name reqVal req t resp h1 h2 h3
  simp [handle, h1, h2, h3, assertString]

/-- Witness for claim C4: an empty stored username and an empty requested
value still produce the 403 response. -/
theorem claim_C4_witness :
    handle (constActive [("username", ClaimValue.str "")]) (marshalConst "j") "n"
        (Route.protectedClaimRoute "username" "") ⟨"Bearer tok", []⟩ =
      ⟨403, "claim does not match"⟩ :=
  claim_C4_empty_claim_never_allowed (constActive [("username", ClaimValue.str "")])
    (marshalConst "j") "n" "username" "" ⟨"Bearer tok", []⟩ "tok"
    ⟨true, [("username", ClaimValue.str "")]⟩ (by decide) rfl rfl

/-- Claim C6: the spec-level claim matcher agrees with the code — a match
is exactly an authorized 200 response on the claim route — while its four
failure kinds, although all answered with the same 403 response, are
pairwise distinct internal results reached by four concrete inputs. -/
theorem claim_C6_failure_kinds_distinguishable :
    (∀ (claims : List (String × ClaimValue)) (name reqVal : String),
      matchClaim claims name reqVal = MatchResult.ok ↔
        handle (constActive claims) (marshalConst "j") "n"
            (Route.protectedClaimRoute name reqVal) ⟨"Bearer t", []⟩ =
          ⟨200, "authorized with value " ++ reqVal⟩) ∧
    matchClaim [] "c" "x" = MatchResult.claimAbsent ∧
    matchClaim [("c", ClaimValue.num 3)] "c" "x" = MatchResult.claimTypeMismatch ∧
    matchClaim [("c", ClaimValue.str "")] "c" "x" = MatchResult.claimEmpty ∧
    matchClaim [("c", ClaimValue.str "y")] "c" "x" = MatchResult.claimValueMismatch ∧
    [MatchResult.claimAbsent, MatchResult.claimTypeMismatch, MatchResult.claimEmpty,
      MatchResult.claimValueMismatch].Nodup ∧
    handle (constActive []) (marshalConst "j") "n"
        (Route.protectedClaimRoute "c" "x") ⟨"Bearer t", []⟩ =
      ⟨403, "claim does not match"⟩ ∧
    handle (constActive [("c", ClaimValue.num 3)]) (marshalConst "j") "n"
        (Route.protectedClaimRoute "c" "x") ⟨"Bearer t", []⟩ =
      ⟨403, "claim does not match"⟩ ∧
    handle (constActive [("c", ClaimValue.str "")]) (marshalConst "j") "n"
        (Route.protectedClaimRoute "c" "x") ⟨"Bearer t", []⟩ =
      ⟨403, "claim does not match"⟩ ∧
    handle (constActive [("c", ClaimValue.str "y")]) (marshalConst "j") "n"
        (Route.protectedClaimRoute "c" "x") ⟨"Bearer t", []⟩ =
      ⟨403, "claim does not match"⟩ := by
  refine ⟨?_, by decide, by decide, by decide, by decide, by decide, by decide,
    by decide, by decide, by decide⟩
  intro claims name reqVal
  have hct : checkToken "Bearer t" = CheckTokenResult.token "t" := by decide
  have hor : constActive claims "t" = Except.ok ⟨true, claims⟩ := rfl
  rcases hl : lookupClaim claims name with _ | v
  · simp [matchClaim, hl, handle, hct, hor, assertString]
  · cases v with
    | str s =>
      by_cases hs : s = ""
      · subst hs
        simp [matchClaim, hl, handle, hct, hor, assertString]
      · by_cases hv : s = reqVal
        · subst hv
          simp [matchClaim, hl, handle, hct, hor, assertString, hs]
        · simp [matchClaim, hl, handle, hct, hor, assertString, hs, hv]
    | num n => simp [matchClaim, hl, handle, hct, hor, assertString]
    | boolean bv => simp [matchClaim, hl, handle, hct, hor, assertString]
    | null => simp [matchClaim, hl, handle, hct, hor, assertString]
    | nested mv => simp [matchClaim, hl, handle, hct, hor, assertString]

end OidcApi
